import Mathlib

/-!
# Verification of the gopcua client session layer (`client.go`)

A shallow embedding of the OPC UA high-level client from `client.go`.
The client keeps a secure channel (`sechan`, a pointer that is `nil` until
`Dial` succeeds) and an active session held in a `sync/atomic.Value`
(uninitialized until the first `Dial` call runs `once.Do`).

The secure channel itself (`uasc.SecureChannel`) is outside this file's
source; its `Send(req, authToken, handler)` is modelled as a synchronous
exchange against an oracle of wire outcomes: each call consumes the next
`ChanResp` (a transport error, or a decoded response value handed to the
handler) and records the message that was put on the wire.

Go panics are modelled explicitly by an `Outcome.panic` result:
* reading an `atomic.Value` that was never stored and asserting `.(*Session)`
  panics (`interface conversion`),
* `atomic.Value.Store(nil)` with an untyped nil panics
  (`sync/atomic: store of nil value into Value`),
* calling a method on a nil `*uasc.SecureChannel` dereferences nil.
-/

/-- Errors surfaced by the client (the `fmt.Errorf` values in `client.go`)
and abstract transport-level errors from the channel. -/
inductive UaError
  | alreadyConnected                 -- Connect: "already connected"
  | secureChannelAlreadyConnected    -- Dial: "secure channel already connected"
  | channelNotOpen                   -- CreateSession: "secure channel not connected"
  | invalidResponse                  -- handler type assertion failed
  | transport (n : Nat)              -- an error returned by the channel layer
  deriving DecidableEq, Repr

/-- Model of `ua.SignatureData` (Algorithm, Signature); the client only ever builds
the empty value `&ua.SignatureData{}`. -/
structure SignatureData where
  algorithm : Option String
  signature : Option (List Nat)
  deriving DecidableEq, Repr

/-- The user identity token variants carried by a session configuration. -/
inductive UserIdentityToken
  | anonymous (policyID : String)
  | other (n : Nat)
  deriving DecidableEq, Repr

/-- Model of `uasc.SessionConfig`: the fields `CreateSession`/`ActivateSession` read. -/
structure SessionConfig where
  clientDescription : Nat
  localeIDs : List String
  userIdentityToken : UserIdentityToken
  userTokenSignature : Option SignatureData
  deriving DecidableEq, Repr

/-- Model of `uasc.Config`: the only field the client reads is the certificate. -/
structure Config where
  certificate : Option (List Nat)
  deriving DecidableEq, Repr

/-- Model of `DefaultSessionConfig = uasc.NewClientSessionConfig(["en-US"], Anonymous)`. -/
def DefaultSessionConfig : SessionConfig :=
  { clientDescription := 0
    localeIDs := ["en-US"]
    userIdentityToken := .anonymous "open62541-anonymous-policy"
    userTokenSignature := none }

/-- Model of `ua.CreateSessionResponse`: the fields the session layer keeps.
`authenticationToken` is a `*ua.NodeID` (`none` = nil / null node id). -/
structure CreateSessionResponse where
  sessionID : Nat
  authenticationToken : Option Nat
  serverNonce : List Nat
  deriving DecidableEq, Repr

/-- The `Session` record of `client.go` (config, server response, and the
two signature placeholders that are created empty). -/
structure Session where
  cfg : SessionConfig
  resp : CreateSessionResponse
  mySignature : SignatureData
  signatureToSend : SignatureData
  deriving DecidableEq, Repr

/-- The `Client` record of `client.go`.

* `sechan : Option Unit` — `some ()` iff the `*uasc.SecureChannel` pointer
  is non-nil.
* `session : Option (Option Session)` — the `atomic.Value`:
  `none` ≙ never stored (a `Load().(*Session)` panics),
  `some none` ≙ the typed nil `(*Session)(nil)`,
  `some (some s)` ≙ an active session.
* `onceDone : Bool` — whether `once.Do` has fired. -/
structure Client where
  endpointURL : String
  config : Option Config
  sessionConfig : Option SessionConfig
  sechan : Option Unit
  session : Option (Option Session)
  onceDone : Bool
  deriving DecidableEq, Repr

/-- The service requests the client puts on the wire, with the fields the
client fills in. -/
inductive ReqKind
  | createSession (clientDescription : Nat) (endpointURL : String)
      (sessionName : String) (clientNonce : Nat)
      (clientCertificate : Option (List Nat))
  | activateSession (clientSignature : SignatureData)
      (localeIDs : List String) (userIdentityToken : UserIdentityToken)
      (userTokenSignature : Option SignatureData)
  | closeSession (deleteSubscriptions : Bool)
  | getEndpoints (endpointURL : String)
  | otherReq (n : Nat)
  deriving DecidableEq, Repr

/-- One message handed to `sechan.Send`: the request plus the auth token
placed in the request header (`none` = nil token = null node id). -/
structure WireMsg where
  req : ReqKind
  authToken : Option Nat
  deriving DecidableEq, Repr

/-- Decoded response values the channel can hand to a handler. -/
inductive RespVal
  | createSessionResp (r : CreateSessionResponse)
  | activateSessionResp
  | closeSessionResp
  | getEndpointsResp (endpoints : List Nat)
  | otherResp (n : Nat)
  deriving DecidableEq, Repr

/-- The outcome the channel produces for one `sechan.Send` call. -/
inductive ChanResp
  | err (e : UaError)
  | resp (v : RespVal)
  deriving DecidableEq, Repr

/-- Result of running a piece of Go code: a value, an `error`, or a panic. -/
inductive Outcome (α : Type)
  | ok (a : α)
  | err (e : UaError)
  | panic (msg : String)
  deriving DecidableEq, Repr

/-- Go panic message for `Load().(*Session)` on a never-stored `atomic.Value`. -/
def nilInterfaceConversionMsg : String :=
  "interface conversion: interface is nil, not *opcua.Session"

/-- Go panic message for `atomic.Value.Store(nil)` with an untyped nil. -/
def storeNilMsg : String := "sync/atomic: store of nil value into Value"

/-- Go panic message for calling a method through a nil pointer. -/
def nilDerefMsg : String := "invalid memory address or nil pointer dereference"

/-- Result of one client operation: its outcome, the client state after it,
the messages put on the wire, and the unconsumed oracle. -/
structure OpResult (α : Type) where
  out : Outcome α
  client : Client
  sent : List WireMsg
  oracle : List ChanResp
  deriving DecidableEq, Repr

/-- Run a response handler on the outcome of a channel exchange: the
handler only sees a decoded response value; errors and panics pass
through.  This is the shape of every `func(v interface) error` handler in
`client.go` that just type-asserts the response. -/
def mapOut {α : Type} (r : OpResult RespVal) (f : RespVal → Outcome α) :
    OpResult α :=
  match r.out with
  | .ok v => ⟨f v, r.client, r.sent, r.oracle⟩
  | .err e => ⟨.err e, r.client, r.sent, r.oracle⟩
  | .panic m => ⟨.panic m, r.client, r.sent, r.oracle⟩

/-- Model of `c.sechan.Send(req, authToken, handler)`: panics via nil dereference if
the channel pointer is nil; otherwise writes the message and consumes the
next oracle entry (an exhausted oracle behaves as a transport error).
The client state is never touched by the channel. -/
def sechanSend (c : Client) (msg : WireMsg) (oracle : List ChanResp) :
    OpResult RespVal :=
  match c.sechan with
  | none => ⟨.panic nilDerefMsg, c, [], oracle⟩
  | some _ =>
    match oracle with
    | [] => ⟨.err (.transport 0), c, [msg], []⟩
    | .err e :: rest => ⟨.err e, c, [msg], rest⟩
    | .resp v :: rest => ⟨.ok v, c, [msg], rest⟩

/-- The Go method `Client.Session`: `c.session.Load().(*Session)`.
Panics if the atomic value was never stored. -/
def Client.Session' (c : Client) : Outcome (Option Session) :=
  match c.session with
  | none => .panic nilInterfaceConversionMsg
  | some s => .ok s

/-- Model of `Client.Send(req, h)`: read the active session atomically, attach its
authentication token if present, delegate to `sechan.Send`.  The decoded
response value is returned for the caller's handler logic. -/
def Client.Send (c : Client) (req : ReqKind) (oracle : List ChanResp) :
    OpResult RespVal :=
  match c.Session' with
  | .panic m => ⟨.panic m, c, [], oracle⟩
  | .err e => ⟨.err e, c, [], oracle⟩
  | .ok s =>
    let authToken : Option Nat :=
      match s with
      | none => none
      | some sess => sess.resp.authenticationToken
    sechanSend c ⟨req, authToken⟩ oracle

/-- Model of `Client.GetEndpoints`: send a `GetEndpointsRequest` through `Send` and
type-check the response in the handler. -/
def Client.GetEndpoints (c : Client) (oracle : List ChanResp) :
    OpResult (List Nat) :=
  mapOut (c.Send (.getEndpoints c.endpointURL) oracle) fun v =>
    match v with
    | .getEndpointsResp eps => .ok eps
    | _ => .err .invalidResponse

/-- Model of `Client.CreateSession(cfg)`: requires an open channel
(`"secure channel not connected"` otherwise), defaults the configuration,
reads the client certificate, draws a 32-byte nonce (its result is the
`nonce` parameter, `rand.Read` failures included), and sends the
`CreateSessionRequest` directly through `sechan.Send` with a nil auth token.
`nowNanos` stands for `time.Now().UnixNano()` in the session name.
On success the new session is returned and NOT stored in the client. -/
def Client.CreateSession (c : Client) (cfg : Option SessionConfig)
    (nonce : Except UaError Nat) (nowNanos : Nat) (oracle : List ChanResp) :
    OpResult (Option Session) :=
  match c.sechan with
  | none => ⟨.err .channelNotOpen, c, [], oracle⟩
  | some _ =>
    let cfg := cfg.getD DefaultSessionConfig
    let clientCert : Option (List Nat) :=
      match c.config with
      | none => none
      | some conf => conf.certificate
    match nonce with
    | .error e => ⟨.err e, c, [], oracle⟩
    | .ok n =>
      let req : ReqKind :=
        .createSession cfg.clientDescription c.endpointURL
          ("gopcua-" ++ toString nowNanos) n clientCert
      -- for the CreateSessionRequest the authToken is always nil
      mapOut (sechanSend c ⟨req, none⟩ oracle) fun v =>
        match v with
        | .createSessionResp resp =>
          .ok (some { cfg := cfg, resp := resp,
                      mySignature := ⟨none, none⟩,
                      signatureToSend := ⟨none, none⟩ })
        | _ => .err .invalidResponse

/-- Model of the unexported `Client.closeSession(s)`: nil session is a no-op; otherwise
send a `CloseSessionRequest{DeleteSubscriptions: true}` through `c.Send`
(so the auth token attached is the ACTIVE session's, not `s`'s). -/
def Client.closeSession (c : Client) (s : Option Session)
    (oracle : List ChanResp) : OpResult Unit :=
  match s with
  | none => ⟨.ok (), c, [], oracle⟩
  | some _ =>
    mapOut (c.Send (.closeSession true) oracle) fun v =>
      match v with
      | .closeSessionResp => .ok ()
      | _ => .err .invalidResponse

/-- Model of `Client.CloseSession()`: close the current session; clear the atomic
holder (store the typed nil) only if the close succeeded. -/
def Client.CloseSession (c : Client) (oracle : List ChanResp) :
    OpResult Unit :=
  match c.Session' with
  | .panic m => ⟨.panic m, c, [], oracle⟩
  | .err e => ⟨.err e, c, [], oracle⟩
  | .ok s =>
    let r := c.closeSession s oracle
    match r.out with
    | .ok _ => ⟨.ok (), { r.client with session := some none },
                r.sent, r.oracle⟩
    | .err e => ⟨.err e, r.client, r.sent, r.oracle⟩
    | .panic m => ⟨.panic m, r.client, r.sent, r.oracle⟩

/-- Model of `Client.ActivateSession(s)`: build the `ActivateSessionRequest` from
`s`'s config (a nil `s` dereferences nil), send it with `s`'s auth token;
in the response handler close the previously-active session via
`CloseSession`; if that fails, try to close `s` itself (error ignored) and
return the prior error; otherwise store `s` as the active session. -/
def Client.ActivateSession (c : Client) (s : Option Session)
    (oracle : List ChanResp) : OpResult Unit :=
  match s with
  | none => ⟨.panic nilDerefMsg, c, [], oracle⟩
  | some sess =>
    let req : ReqKind :=
      .activateSession sess.signatureToSend sess.cfg.localeIDs
        sess.cfg.userIdentityToken sess.cfg.userTokenSignature
    let r0 := sechanSend c ⟨req, sess.resp.authenticationToken⟩ oracle
    match r0.out with
    | .panic m => ⟨.panic m, c, r0.sent, r0.oracle⟩
    | .err e => ⟨.err e, c, r0.sent, r0.oracle⟩
    | .ok .activateSessionResp =>
      let r := c.CloseSession r0.oracle
      match r.out with
      | .ok _ =>
        ⟨.ok (), { r.client with session := some (some sess) },
         r0.sent ++ r.sent, r.oracle⟩
      | .err e =>
        -- try to close the newly created session but report only
        -- the initial error
        let r2 := r.client.closeSession (some sess) r.oracle
        ⟨.err e, r2.client, r0.sent ++ r.sent ++ r2.sent, r2.oracle⟩
      | .panic m => ⟨.panic m, r.client, r0.sent ++ r.sent, r.oracle⟩
    | .ok _ => ⟨.err .invalidResponse, c, r0.sent, r0.oracle⟩

/-- Model of `Client.DetachSession()`: reads the active session, then executes
`c.session.Store(nil)` — an untyped nil, which `sync/atomic.Value.Store`
rejects with a panic before storing anything. -/
def Client.DetachSession (c : Client) : Outcome (Option Session) × Client :=
  match c.Session' with
  | .panic m => (.panic m, c)
  | .err e => (.err e, c)
  | .ok _ => (.panic storeNilMsg, c)

/-- Model of `Client.Dial(cfg)`: here `once.Do` initializes the session holder to the
typed nil on the first call; fails if a channel already exists; the UACP
dial / secure-channel open outcome is the `dialResult` parameter. -/
def Client.Dial (c : Client) (dialResult : Except UaError Unit) :
    Outcome Unit × Client :=
  let c := if c.onceDone then c
           else { c with session := some none, onceDone := true }
  match c.sechan with
  | some _ => (.err .secureChannelAlreadyConnected, c)
  | none =>
    match dialResult with
    | .error e => (.err e, c)
    | .ok _ => (.ok (), { c with sechan := some () })

/-- Model of `Client.Close()`: runs `CloseSession` with its error discarded (a panic still
propagates), then `c.sechan.Close()` whose error is returned; a nil channel
pointer dereferences nil.  The channel pointer itself is not cleared. -/
def Client.Close (c : Client) (oracle : List ChanResp)
    (chanCloseResult : Except UaError Unit) : OpResult Unit :=
  let r := c.CloseSession oracle
  match r.out with
  | .panic m => ⟨.panic m, r.client, r.sent, r.oracle⟩
  | _ =>
    match r.client.sechan with
    | none => ⟨.panic nilDerefMsg, r.client, r.sent, r.oracle⟩
    | some _ =>
      match chanCloseResult with
      | .ok _ => ⟨.ok (), r.client, r.sent, r.oracle⟩
      | .error e => ⟨.err e, r.client, r.sent, r.oracle⟩

/-- Result of `Connect`: an `OpResult` plus the sessions that
`CreateSession` returned during the call (for bookkeeping of which
`Session` values exist). -/
structure ConnectResult where
  out : Outcome Unit
  client : Client
  sent : List WireMsg
  oracle : List ChanResp
  created : List Session
  deriving DecidableEq, Repr

/-- Model of `Client.Connect()`: fail with "already connected" if a channel exists;
otherwise `Dial`, `CreateSession(c.SessionConfig)`, `ActivateSession`; on a
failure after `Dial` the client is closed (that error discarded). -/
def Client.Connect (c : Client) (dialResult : Except UaError Unit)
    (nonce : Except UaError Nat) (nowNanos : Nat) (oracle : List ChanResp)
    (chanCloseResult : Except UaError Unit) : ConnectResult :=
  match c.sechan with
  | some _ => ⟨.err .alreadyConnected, c, [], oracle, []⟩
  | none =>
    let rd := c.Dial dialResult
    match rd.1 with
    | .err e => ⟨.err e, rd.2, [], oracle, []⟩
    | .panic m => ⟨.panic m, rd.2, [], oracle, []⟩
    | .ok _ =>
      let r := rd.2.CreateSession rd.2.sessionConfig nonce nowNanos oracle
      match r.out with
      | .err e =>
        let rc := r.client.Close r.oracle chanCloseResult
        ⟨.err e, rc.client, r.sent ++ rc.sent, rc.oracle, []⟩
      | .panic m => ⟨.panic m, r.client, r.sent, r.oracle, []⟩
      | .ok s =>
        let created := match s with | none => [] | some sess => [sess]
        let ra := r.client.ActivateSession s r.oracle
        match ra.out with
        | .ok _ => ⟨.ok (), ra.client, r.sent ++ ra.sent, ra.oracle, created⟩
        | .err e =>
          let rc := ra.client.Close ra.oracle chanCloseResult
          ⟨.err e, rc.client, r.sent ++ ra.sent ++ rc.sent, rc.oracle,
           created⟩
        | .panic m =>
          ⟨.panic m, ra.client, r.sent ++ ra.sent, ra.oracle, created⟩

/-! ## Trace semantics

A caller of the package can only hold `*Session` values previously handed
out by this client (`Session` has unexported fields, so outside the package
no other value can be constructed).  An `Op.activateSession i` therefore
names the `i`-th session the client has returned from `CreateSession`
(an out-of-range index models passing a nil `*Session`). -/

/-- One API call on the client, with the environment inputs it needs. -/
inductive Op
  | dial (dialResult : Except UaError Unit)
  | connect (dialResult : Except UaError Unit) (nonce : Except UaError Nat)
      (nowNanos : Nat) (oracle : List ChanResp)
      (chanCloseResult : Except UaError Unit)
  | createSession (cfg : Option SessionConfig) (nonce : Except UaError Nat)
      (nowNanos : Nat) (oracle : List ChanResp)
  | activateSession (i : Nat) (oracle : List ChanResp)
  | closeSession (oracle : List ChanResp)
  | detachSession
  | close (oracle : List ChanResp) (chanCloseResult : Except UaError Unit)
  | send (req : ReqKind) (oracle : List ChanResp)
  | getEndpoints (oracle : List ChanResp)

/-- Client state plus the list of sessions `CreateSession` has returned
(see `step` below). -/
structure TraceState where
  client : Client
  created : List Session

/-- Apply one API call to the trace state. -/
def step (ts : TraceState) (op : Op) : TraceState :=
  match op with
  | .dial d => ⟨(ts.client.Dial d).2, ts.created⟩
  | .connect d nonce now oracle ccr =>
    let r := ts.client.Connect d nonce now oracle ccr
    ⟨r.client, ts.created ++ r.created⟩
  | .createSession cfg nonce now oracle =>
    let r := ts.client.CreateSession cfg nonce now oracle
    match r.out with
    | .ok (some s) => ⟨r.client, ts.created ++ [s]⟩
    | _ => ⟨r.client, ts.created⟩
  | .activateSession i oracle =>
    ⟨(ts.client.ActivateSession (ts.created.get? i) oracle).client,
     ts.created⟩
  | .closeSession oracle => ⟨(ts.client.CloseSession oracle).client, ts.created⟩
  | .detachSession => ⟨(ts.client.DetachSession).2, ts.created⟩
  | .close oracle ccr => ⟨(ts.client.Close oracle ccr).client, ts.created⟩
  | .send req oracle => ⟨(ts.client.Send req oracle).client, ts.created⟩
  | .getEndpoints oracle => ⟨(ts.client.GetEndpoints oracle).client, ts.created⟩

/-- Run a sequence of API calls. -/
def run (ts : TraceState) : List Op → TraceState
  | [] => ts
  | op :: ops => run (step ts op) ops

/-- A freshly constructed client (`&Client{EndpointURL: ..., ...}`): no
channel, the atomic session holder never stored, `once` not fired. -/
def initClient (url : String) (config : Option Config)
    (sessionConfig : Option SessionConfig) : Client :=
  ⟨url, config, sessionConfig, none, none, false⟩

/-- The active session was handed out by `CreateSession`. -/
def activeFromCreated (ts : TraceState) : Prop :=
  ∀ s : Session, ts.client.session = some (some s) → s ∈ ts.created

/-! ## Frame lemmas: which operations touch which client fields -/

theorem sechanSend_client_eq (c : Client) (msg : WireMsg)
    (oracle : List ChanResp) : (sechanSend c msg oracle).client = c := by
  unfold sechanSend
  split
  · rfl
  · split <;> rfl

theorem mapOut_client {α : Type} (r : OpResult RespVal)
    (f : RespVal → Outcome α) : (mapOut r f).client = r.client := by
  unfold mapOut
  split <;> rfl

theorem Send_client_eq (c : Client) (req : ReqKind) (oracle : List ChanResp) :
    (c.Send req oracle).client = c := by
  unfold Client.Send
  split
  · rfl
  · rfl
  · exact sechanSend_client_eq ..

theorem closeSession_client_eq (c : Client) (s : Option Session)
    (oracle : List ChanResp) : (c.closeSession s oracle).client = c := by
  unfold Client.closeSession
  split
  · rfl
  · simp only [mapOut_client, Send_client_eq]

theorem CreateSession_client_eq (c : Client) (cfg : Option SessionConfig)
    (nonce : Except UaError Nat) (nowNanos : Nat) (oracle : List ChanResp) :
    (c.CreateSession cfg nonce nowNanos oracle).client = c := by
  unfold Client.CreateSession
  split
  · rfl
  · dsimp only []
    rcases nonce with e | n
    · rfl
    · simp only [mapOut_client, sechanSend_client_eq]

theorem GetEndpoints_client_eq (c : Client) (oracle : List ChanResp) :
    (c.GetEndpoints oracle).client = c := by
  unfold Client.GetEndpoints
  simp only [mapOut_client, Send_client_eq]

theorem CloseSession_session_cases (c : Client) (oracle : List ChanResp) :
    (c.CloseSession oracle).client.session = c.session ∨
    (c.CloseSession oracle).client.session = some none := by
  unfold Client.CloseSession
  split
  · left; rfl
  · left; rfl
  · dsimp only []
    split
    · right
      simp only [closeSession_client_eq]
    · left
      simp only [closeSession_client_eq]
    · left
      simp only [closeSession_client_eq]

theorem ActivateSession_session_cases (c : Client) (s : Option Session)
    (oracle : List ChanResp) :
    (c.ActivateSession s oracle).client.session = c.session ∨
    (c.ActivateSession s oracle).client.session = some none ∨
    ∃ sess, s = some sess ∧
      (c.ActivateSession s oracle).client.session = some (some sess) := by
  unfold Client.ActivateSession
  split
  · left; rfl
  · rename_i sess
    try dsimp only []
    split
    · left; rfl
    · left; rfl
    · try dsimp only []
      split
      · right; right
        exact ⟨sess, rfl, rfl⟩
      · simp only [closeSession_client_eq]
        rcases CloseSession_session_cases c
            (sechanSend c ⟨_, sess.resp.authenticationToken⟩ oracle).oracle
          with hc | hc
        · left; exact hc
        · right; left; exact hc
      · rcases CloseSession_session_cases c
            (sechanSend c ⟨_, sess.resp.authenticationToken⟩ oracle).oracle
          with hc | hc
        · left; exact hc
        · right; left; exact hc
    · left; rfl

theorem Dial_session_cases (c : Client) (d : Except UaError Unit) :
    ((c.Dial d).2).session = c.session ∨ ((c.Dial d).2).session = some none := by
  unfold Client.Dial
  by_cases ho : c.onceDone <;>
    simp only [ho, if_true, if_false, ite_true, ite_false] <;>
    split
  · left; rfl
  · split
    · left; rfl
    · left; rfl
  · right; rfl
  · split
    · right; rfl
    · right; rfl

theorem Close_session_cases (c : Client) (oracle : List ChanResp)
    (ccr : Except UaError Unit) :
    (c.Close oracle ccr).client.session = c.session ∨
    (c.Close oracle ccr).client.session = some none := by
  unfold Client.Close
  try dsimp only []
  repeat' split
  all_goals exact CloseSession_session_cases c oracle

theorem DetachSession_client_eq (c : Client) : (c.DetachSession).2 = c := by
  unfold Client.DetachSession
  split <;> rfl

/-- How one operation may move the session holder: leave it alone, clear it
to the typed nil, or install a session from the given pool. -/
def sessEvolves (old new : Option (Option Session)) (cr : List Session) :
    Prop :=
  new = old ∨ new = some none ∨ ∃ s, s ∈ cr ∧ new = some (some s)

theorem sessEvolves_of_eq {a b : Option (Option Session)}
    {cr : List Session} (h : b = a) : sessEvolves a b cr := Or.inl h

theorem sessEvolves_trans {a b c' : Option (Option Session)}
    {cr : List Session} (h1 : sessEvolves a b cr)
    (h2 : sessEvolves b c' cr) : sessEvolves a c' cr := by
  rcases h2 with rfl | h2 | h2
  · exact h1
  · exact Or.inr (Or.inl h2)
  · exact Or.inr (Or.inr h2)

theorem sessEvolves_mono {a b : Option (Option Session)}
    {cr cr' : List Session} (hsub : ∀ s ∈ cr, s ∈ cr')
    (h : sessEvolves a b cr) : sessEvolves a b cr' := by
  rcases h with h | h | ⟨s, hs, h⟩
  · exact Or.inl h
  · exact Or.inr (Or.inl h)
  · exact Or.inr (Or.inr ⟨s, hsub s hs, h⟩)

theorem Dial_evolves (c : Client) (d : Except UaError Unit)
    (cr : List Session) : sessEvolves c.session ((c.Dial d).2).session cr := by
  rcases Dial_session_cases c d with h | h
  · exact Or.inl h
  · exact Or.inr (Or.inl h)

theorem CloseSession_evolves (c : Client) (oracle : List ChanResp)
    (cr : List Session) :
    sessEvolves c.session (c.CloseSession oracle).client.session cr := by
  rcases CloseSession_session_cases c oracle with h | h
  · exact Or.inl h
  · exact Or.inr (Or.inl h)

theorem Close_evolves (c : Client) (oracle : List ChanResp)
    (ccr : Except UaError Unit) (cr : List Session) :
    sessEvolves c.session (c.Close oracle ccr).client.session cr := by
  rcases Close_session_cases c oracle ccr with h | h
  · exact Or.inl h
  · exact Or.inr (Or.inl h)

theorem ActivateSession_evolves (c : Client) (s : Option Session)
    (oracle : List ChanResp) (cr : List Session)
    (hmem : ∀ sess, s = some sess → sess ∈ cr) :
    sessEvolves c.session (c.ActivateSession s oracle).client.session cr := by
  rcases ActivateSession_session_cases c s oracle with h | h | ⟨sess, hs, h⟩
  · exact Or.inl h
  · exact Or.inr (Or.inl h)
  · exact Or.inr (Or.inr ⟨sess, hmem sess hs, h⟩)

theorem Connect_evolves (c : Client) (d : Except UaError Unit)
    (nonce : Except UaError Nat) (nowNanos : Nat) (oracle : List ChanResp)
    (ccr : Except UaError Unit) :
    sessEvolves c.session
      (c.Connect d nonce nowNanos oracle ccr).client.session
      (c.Connect d nonce nowNanos oracle ccr).created := by
  have hR : ((c.Dial d).2.CreateSession (c.Dial d).2.sessionConfig nonce
      nowNanos oracle).client.session = (c.Dial d).2.session :=
    congrArg Client.session (CreateSession_client_eq ..)
  unfold Client.Connect
  try dsimp only []
  split
  · exact Or.inl rfl
  · split
    · exact Dial_evolves c d _
    · exact Dial_evolves c d _
    · split
      · -- CreateSession failed; the client is closed
        refine sessEvolves_trans (Dial_evolves c d _) ?_
        refine sessEvolves_trans (sessEvolves_of_eq hR) ?_
        exact Close_evolves _ _ ccr _
      · -- CreateSession panicked
        refine sessEvolves_trans (Dial_evolves c d _) ?_
        exact sessEvolves_of_eq hR
      · -- CreateSession returned a session
        rename_i s heq0
        split
        · refine sessEvolves_trans (Dial_evolves c d _) ?_
          refine sessEvolves_trans (sessEvolves_of_eq hR) ?_
          refine ActivateSession_evolves _ s _ _ ?_
          rintro sess rfl
          simp
        · refine sessEvolves_trans (Dial_evolves c d _) ?_
          refine sessEvolves_trans (sessEvolves_of_eq hR) ?_
          refine sessEvolves_trans (ActivateSession_evolves _ s _ _ ?_)
            (Close_evolves _ _ ccr _)
          rintro sess rfl
          simp
        · refine sessEvolves_trans (Dial_evolves c d _) ?_
          refine sessEvolves_trans (sessEvolves_of_eq hR) ?_
          refine ActivateSession_evolves _ s _ _ ?_
          rintro sess rfl
          simp

theorem step_created_mono (ts : TraceState) (op : Op) :
    ∀ s ∈ ts.created, s ∈ (step ts op).created := by
  intro s hs
  cases op with
  | dial d => exact hs
  | connect d nonce now oracle ccr =>
    exact List.mem_append_left _ hs
  | createSession cfg nonce now oracle =>
    unfold step
    try dsimp only []
    split
    · exact List.mem_append_left _ hs
    · exact hs
  | activateSession i oracle => exact hs
  | closeSession oracle => exact hs
  | detachSession => exact hs
  | close oracle ccr => exact hs
  | send req oracle => exact hs
  | getEndpoints oracle => exact hs

theorem step_evolves (ts : TraceState) (op : Op) :
    sessEvolves ts.client.session (step ts op).client.session
      (step ts op).created := by
  cases op with
  | dial d => exact Dial_evolves ts.client d _
  | connect d nonce now oracle ccr =>
    refine sessEvolves_mono (fun s hs => List.mem_append_right _ hs)
      (Connect_evolves ts.client d nonce now oracle ccr)
  | createSession cfg nonce now oracle =>
    unfold step
    try dsimp only []
    split
    · exact sessEvolves_of_eq
        (congrArg Client.session (CreateSession_client_eq ..))
    · exact sessEvolves_of_eq
        (congrArg Client.session (CreateSession_client_eq ..))
  | activateSession i oracle =>
    refine ActivateSession_evolves ts.client (ts.created.get? i) oracle
      ts.created ?_
    intro sess hsess
    exact List.get?_mem hsess
  | closeSession oracle => exact CloseSession_evolves ts.client oracle _
  | detachSession =>
    exact sessEvolves_of_eq
      (congrArg Client.session (DetachSession_client_eq ts.client))
  | close oracle ccr => exact Close_evolves ts.client oracle ccr _
  | send req oracle =>
    exact sessEvolves_of_eq (congrArg Client.session (Send_client_eq ..))
  | getEndpoints oracle =>
    exact sessEvolves_of_eq
      (congrArg Client.session (GetEndpoints_client_eq ..))

theorem step_preserves_activeFromCreated (ts : TraceState) (op : Op)
    (h : activeFromCreated ts) : activeFromCreated (step ts op) := by
  intro s hs
  rcases step_evolves ts op with hc | hc | ⟨s', hmem, hc⟩
  · exact step_created_mono ts op s (h s (hc ▸ hs))
  · rw [hc] at hs
    cases hs
  · rw [hc] at hs
    obtain rfl : s' = s := by
      injection hs with h1
      injection h1
    exact hmem

theorem run_preserves_activeFromCreated (ops : List Op) (ts : TraceState)
    (h : activeFromCreated ts) : activeFromCreated (run ts ops) := by
  induction ops generalizing ts with
  | nil => exact h
  | cons op ops ih =>
    exact ih (step ts op) (step_preserves_activeFromCreated ts op h)

/-! ## Concrete values for the closed witness theorems -/

def demoCfg : SessionConfig :=
  { clientDescription := 1
    localeIDs := ["en-US"]
    userIdentityToken := .anonymous "open62541-anonymous-policy"
    userTokenSignature := none }

def demoResp : CreateSessionResponse := ⟨10, some 42, [1, 2]⟩

def demoResp2 : CreateSessionResponse := ⟨11, some 43, [3]⟩

def demoSession : Session := ⟨demoCfg, demoResp, ⟨none, none⟩, ⟨none, none⟩⟩

def demoSession2 : Session := ⟨demoCfg, demoResp2, ⟨none, none⟩, ⟨none, none⟩⟩

/-- A dialed, connected client whose active session is `demoSession`. -/
def demoClient : Client :=
  ⟨"opc.tcp://srv:4840", none, none, some (), some (some demoSession), true⟩

/-- A dialed client with an open channel and no active session. -/
def demoClientNoSession : Client :=
  ⟨"opc.tcp://srv:4840", none, none, some (), some none, true⟩

/-! ## Claims -/

/-- C2 (code bug): `DetachSession` is documented to return the previously
active session and clear the holder without error, but its body runs
`c.session.Store(nil)` with an untyped nil, which `sync/atomic.Value.Store`
rejects with a panic.  On every dialed client (holder initialized, any
active-session state) `DetachSession` therefore panics instead of
returning. -/
theorem detachSession_store_nil_panics (c : Client) (s : Option Session)
    (hs : c.session = some s) :
    (c.DetachSession).1 = .panic storeNilMsg ∧ (c.DetachSession).2 = c := by
  unfold Client.DetachSession Client.Session'
  rw [hs]
  exact ⟨rfl, rfl⟩

/-- Witness for C2: the panic on a concrete connected client with an
active session, and on one without. -/
theorem detachSession_store_nil_panics_witness :
    demoClient.session = some (some demoSession) ∧
    (demoClient.DetachSession).1 = .panic storeNilMsg ∧
    (demoClient.DetachSession).2 = demoClient ∧
    (demoClientNoSession.DetachSession).1 = .panic storeNilMsg :=
  ⟨rfl, (detachSession_store_nil_panics demoClient (some demoSession) rfl).1,
   (detachSession_store_nil_panics demoClient (some demoSession) rfl).2,
   (detachSession_store_nil_panics demoClientNoSession none rfl).1⟩

/-- C3: `Connect` on a client that already holds a secure channel fails
with the "already connected" error, leaves the client (channel and active
session) completely unchanged, and sends nothing on the wire. -/
theorem connect_already_connected (c : Client) (ch : Unit)
    (hch : c.sechan = some ch) (d : Except UaError Unit)
    (nonce : Except UaError Nat) (nowNanos : Nat) (oracle : List ChanResp)
    (ccr : Except UaError Unit) :
    (c.Connect d nonce nowNanos oracle ccr).out = .err .alreadyConnected ∧
    (c.Connect d nonce nowNanos oracle ccr).client = c ∧
    (c.Connect d nonce nowNanos oracle ccr).sent = [] := by
  unfold Client.Connect
  rw [hch]
  exact ⟨rfl, rfl, rfl⟩

/-- Witness for C3 on a concrete connected client. -/
theorem connect_already_connected_witness :
    demoClient.sechan = some () ∧
    (demoClient.Connect (.ok ()) (.ok 5) 7 [] (.ok ())).out =
      .err .alreadyConnected ∧
    (demoClient.Connect (.ok ()) (.ok 5) 7 [] (.ok ())).client = demoClient ∧
    (demoClient.Connect (.ok ()) (.ok 5) 7 [] (.ok ())).sent = [] :=
  ⟨rfl,
   (connect_already_connected demoClient () rfl (.ok ()) (.ok 5) 7 [] (.ok ())).1,
   (connect_already_connected demoClient () rfl (.ok ()) (.ok 5) 7 [] (.ok ())).2.1,
   (connect_already_connected demoClient () rfl (.ok ()) (.ok 5) 7 [] (.ok ())).2.2⟩

/-- C5: `CreateSession` never touches the client record: whatever the
channel state, the nonce draw, or the wire outcome, the client after the
call is the client before it — in particular the active-session holder is
unchanged and the returned session is not installed. -/
theorem createSession_does_not_install_session (c : Client)
    (cfg : Option SessionConfig) (nonce : Except UaError Nat)
    (nowNanos : Nat) (oracle : List ChanResp) :
    (c.CreateSession cfg nonce nowNanos oracle).client = c :=
  CreateSession_client_eq c cfg nonce nowNanos oracle

/-! ## More frame lemmas for the wire and outcome components -/

theorem mapOut_sent {α : Type} (r : OpResult RespVal)
    (f : RespVal → Outcome α) : (mapOut r f).sent = r.sent := by
  unfold mapOut
  split <;> rfl

theorem sechanSend_sent (c : Client) (msg : WireMsg) (oracle : List ChanResp)
    (u : Unit) (hch : c.sechan = some u) :
    (sechanSend c msg oracle).sent = [msg] := by
  unfold sechanSend
  rw [hch]
  rcases oracle with _ | ⟨e | v, tail⟩ <;> rfl

theorem sechanSend_out_no_panic (c : Client) (msg : WireMsg)
    (oracle : List ChanResp) (u : Unit) (hch : c.sechan = some u) :
    ∀ m, (sechanSend c msg oracle).out ≠ .panic m := by
  unfold sechanSend
  rw [hch]
  rcases oracle with _ | ⟨e | v, tail⟩ <;> intro m h <;> cases h

theorem CloseSession_client_sechan (c : Client) (oracle : List ChanResp) :
    (c.CloseSession oracle).client.sechan = c.sechan := by
  unfold Client.CloseSession
  split
  · rfl
  · rfl
  · dsimp only []
    split <;> simp only [closeSession_client_eq]

/-- C4: with an open channel the `CreateSessionRequest` goes out with a
null (nil) authentication token, whatever the active-session state; with
no channel, `CreateSession` fails with the "secure channel not connected"
error and sends nothing. -/
theorem createSession_null_auth_token (c : Client) (cfg : Option SessionConfig)
    (n nowNanos : Nat) (oracle : List ChanResp) :
    (c.sechan = some () →
      (c.CreateSession cfg (.ok n) nowNanos oracle).sent =
        [⟨.createSession (cfg.getD DefaultSessionConfig).clientDescription
            c.endpointURL ("gopcua-" ++ toString nowNanos) n
            (match c.config with
             | none => none
             | some conf => conf.certificate),
          none⟩]) ∧
    (c.sechan = none →
      (c.CreateSession cfg (.ok n) nowNanos oracle).out =
        .err .channelNotOpen ∧
      (c.CreateSession cfg (.ok n) nowNanos oracle).sent = []) := by
  constructor
  · intro hch
    unfold Client.CreateSession
    rw [hch]
    dsimp only []
    rw [mapOut_sent, sechanSend_sent c _ oracle () hch]
  · intro hch
    unfold Client.CreateSession
    rw [hch]
    exact ⟨rfl, rfl⟩

/-- Witness for C4, on a client with an active session (the token is still
null) and on a channel-less fresh client. -/
theorem createSession_null_auth_token_witness :
    demoClient.sechan = some () ∧
    (demoClient.CreateSession none (.ok 9) 3 []).sent =
      [⟨.createSession 0 "opc.tcp://srv:4840" "gopcua-3" 9 none, none⟩] ∧
    (initClient "u" none none).sechan = none ∧
    ((initClient "u" none none).CreateSession none (.ok 9) 3 []).out =
      .err .channelNotOpen :=
  ⟨rfl, (createSession_null_auth_token demoClient none 9 3 []).1 rfl, rfl,
   ((createSession_null_auth_token (initClient "u" none none) none 9 3 []).2
      rfl).1⟩

/-- C6: `Send` attaches the active session's authentication token when a
session is active, and a nil token when none is; `GetEndpoints` works over
a channel with no active session, returns the endpoints, and its request
carries no auth token. -/
theorem send_token_injection (c : Client) (req : ReqKind)
    (oracle : List ChanResp) (hch : c.sechan = some ()) :
    (∀ sess, c.session = some (some sess) →
       (c.Send req oracle).sent = [⟨req, sess.resp.authenticationToken⟩]) ∧
    (c.session = some none →
       (c.Send req oracle).sent = [⟨req, none⟩]) ∧
    (∀ (eps : List Nat) (tail : List ChanResp), c.session = some none →
       (c.GetEndpoints
          (ChanResp.resp (.getEndpointsResp eps) :: tail)).out = .ok eps ∧
       (c.GetEndpoints (ChanResp.resp (.getEndpointsResp eps) :: tail)).sent =
         [⟨.getEndpoints c.endpointURL, none⟩]) := by
  refine ⟨?_, ?_, ?_⟩
  · intro sess hs
    unfold Client.Send Client.Session'
    rw [hs]
    dsimp only []
    exact sechanSend_sent c _ oracle () hch
  · intro hs
    unfold Client.Send Client.Session'
    rw [hs]
    dsimp only []
    exact sechanSend_sent c _ oracle () hch
  · intro eps tail hs
    unfold Client.GetEndpoints Client.Send Client.Session' mapOut sechanSend
    rw [hs, hch]
    exact ⟨rfl, rfl⟩

/-- Witness for C6: concrete clients with and without an active session. -/
theorem send_token_injection_witness :
    demoClient.sechan = some () ∧
    demoClient.session = some (some demoSession) ∧
    (demoClient.Send (.otherReq 1) []).sent = [⟨.otherReq 1, some 42⟩] ∧
    demoClientNoSession.session = some none ∧
    (demoClientNoSession.Send (.otherReq 1) []).sent =
      [⟨.otherReq 1, none⟩] ∧
    (demoClientNoSession.GetEndpoints
       [ChanResp.resp (.getEndpointsResp [4, 5])]).out = .ok [4, 5] :=
  ⟨rfl, rfl,
   (send_token_injection demoClient (.otherReq 1) [] rfl).1 demoSession rfl,
   rfl,
   (send_token_injection demoClientNoSession (.otherReq 1) [] rfl).2.1 rfl,
   ((send_token_injection demoClientNoSession (.otherReq 1) [] rfl).2.2
      [4, 5] [] rfl).1⟩

theorem Send_out_no_panic (c : Client) (req : ReqKind)
    (oracle : List ChanResp) (s : Option Session) (u : Unit)
    (hs : c.session = some s) (hch : c.sechan = some u) :
    ∀ m, (c.Send req oracle).out ≠ .panic m := by
  unfold Client.Send Client.Session'
  rw [hs]
  dsimp only []
  exact fun m => sechanSend_out_no_panic c _ oracle u hch m

theorem closeSession_out_no_panic (c : Client) (s' : Option Session)
    (oracle : List ChanResp) (s : Option Session) (u : Unit)
    (hs : c.session = some s) (hch : c.sechan = some u) :
    ∀ m, (c.closeSession s' oracle).out ≠ .panic m := by
  unfold Client.closeSession
  rcases s' with _ | sess
  · intro m h
    cases h
  · dsimp only []
    unfold mapOut
    split
    · rename_i v heq
      rcases v with r | _ | _ | eps | k <;> intro m h <;> cases h
    · intro m h
      cases h
    · rename_i heq
      intro m h
      cases h
      exact Send_out_no_panic c _ oracle s u hs hch _ heq

theorem CloseSession_out_no_panic (c : Client) (oracle : List ChanResp)
    (s : Option Session) (u : Unit)
    (hs : c.session = some s) (hch : c.sechan = some u) :
    ∀ m, (c.CloseSession oracle).out ≠ .panic m := by
  unfold Client.CloseSession Client.Session'
  rw [hs]
  dsimp only []
  split
  · intro m h
    cases h
  · intro m h
    cases h
  · rename_i heq
    intro m h
    cases h
    exact closeSession_out_no_panic c s oracle s u hs hch _ heq

/-- C7: on a connected client (channel open, session holder initialized)
`Close` swallows whatever happened while closing the session — for every
wire oracle its outcome is decided solely by the secure-channel close:
`ok` when the channel closes cleanly, and the channel-close error
otherwise. -/
theorem close_swallows_closeSession_error (c : Client) (s : Option Session)
    (hs : c.session = some s) (hch : c.sechan = some ())
    (oracle : List ChanResp) :
    (c.Close oracle (.ok ())).out = .ok () ∧
    (∀ e, (c.Close oracle (.error e)).out = .err e) := by
  have hse : (c.CloseSession oracle).client.sechan = some () := by
    rw [CloseSession_client_sechan]
    exact hch
  constructor
  · unfold Client.Close
    dsimp only []
    split
    · rename_i m heq
      exact absurd heq (CloseSession_out_no_panic c oracle s () hs hch m)
    · rw [hse]
  · intro e
    unfold Client.Close
    dsimp only []
    split
    · rename_i m heq
      exact absurd heq (CloseSession_out_no_panic c oracle s () hs hch m)
    · rw [hse]

/-- Witness for C7: a concrete connected client, a failing session close
on the wire (transport error), once with a clean channel close and once
with a failing one. -/
theorem close_swallows_closeSession_error_witness :
    demoClient.session = some (some demoSession) ∧
    demoClient.sechan = some () ∧
    (demoClient.Close [ChanResp.err (.transport 7)] (.ok ())).out = .ok () ∧
    (demoClient.Close [ChanResp.err (.transport 7)]
       (.error (.transport 9))).out = .err (.transport 9) :=
  ⟨rfl, rfl,
   (close_swallows_closeSession_error demoClient (some demoSession) rfl rfl
      [ChanResp.err (.transport 7)]).1,
   (close_swallows_closeSession_error demoClient (some demoSession) rfl rfl
      [ChanResp.err (.transport 7)]).2 (.transport 9)⟩

/-- C9: `CloseSession` with an active session sends one
`CloseSessionRequest` carrying that session's token; the holder is cleared
(set to the typed nil) exactly when the round-trip succeeds, and is left
holding the same session on any error. -/
theorem closeSession_clears_only_on_success (c : Client) (s : Session)
    (hs : c.session = some (some s)) (hch : c.sechan = some ())
    (oracle : List ChanResp) :
    (∀ u, (c.CloseSession oracle).out = .ok u →
       (c.CloseSession oracle).client.session = some none) ∧
    (∀ e, (c.CloseSession oracle).out = .err e →
       (c.CloseSession oracle).client.session = some (some s)) ∧
    (c.CloseSession oracle).sent =
      [⟨.closeSession true, s.resp.authenticationToken⟩] := by
  unfold Client.CloseSession Client.closeSession Client.Send Client.Session'
    mapOut sechanSend
  rw [hs, hch]
  rcases oracle with _ | ⟨e0 | v0, tail⟩
  · dsimp only []
    exact ⟨fun u h => (by cases h), fun e h => hs, rfl⟩
  · dsimp only []
    exact ⟨fun u h => (by cases h), fun e h => hs, rfl⟩
  · rcases v0 with r | _ | _ | eps | k <;> dsimp only []
    · exact ⟨fun u h => (by cases h), fun e h => hs, rfl⟩
    · exact ⟨fun u h => (by cases h), fun e h => hs, rfl⟩
    · exact ⟨fun u h => rfl, fun e h => (by cases h), rfl⟩
    · exact ⟨fun u h => (by cases h), fun e h => hs, rfl⟩
    · exact ⟨fun u h => (by cases h), fun e h => hs, rfl⟩

/-- Witness for C9: success clears the holder, a transport error leaves
the session active. -/
theorem closeSession_clears_only_on_success_witness :
    demoClient.session = some (some demoSession) ∧
    demoClient.sechan = some () ∧
    (demoClient.CloseSession [ChanResp.resp .closeSessionResp]).client.session
      = some none ∧
    (demoClient.CloseSession [ChanResp.err (.transport 3)]).client.session
      = some (some demoSession) ∧
    (demoClient.CloseSession [ChanResp.err (.transport 3)]).sent =
      [⟨.closeSession true, some 42⟩] :=
  ⟨rfl, rfl,
   (closeSession_clears_only_on_success demoClient demoSession rfl rfl
      [ChanResp.resp .closeSessionResp]).1 () rfl,
   (closeSession_clears_only_on_success demoClient demoSession rfl rfl
      [ChanResp.err (.transport 3)]).2.1 (.transport 3) rfl,
   (closeSession_clears_only_on_success demoClient demoSession rfl rfl
      [ChanResp.err (.transport 3)]).2.2⟩

theorem sechanSend_resp (c : Client) (msg : WireMsg) (v : RespVal)
    (rest : List ChanResp) (u : Unit) (hch : c.sechan = some u) :
    sechanSend c msg (ChanResp.resp v :: rest) = ⟨.ok v, c, [msg], rest⟩ := by
  unfold sechanSend
  rw [hch]

theorem sechanSend_err (c : Client) (msg : WireMsg) (e : UaError)
    (rest : List ChanResp) (u : Unit) (hch : c.sechan = some u) :
    sechanSend c msg (ChanResp.err e :: rest) = ⟨.err e, c, [msg], rest⟩ := by
  unfold sechanSend
  rw [hch]

/-- Evaluation of `CloseSession` with an active session and a failing
wire exchange: the error propagates, the holder is untouched. -/
theorem CloseSession_active_err (c : Client) (sess : Session) (e : UaError)
    (t : List ChanResp) (hs : c.session = some (some sess))
    (hch : c.sechan = some ()) :
    c.CloseSession (ChanResp.err e :: t) =
      ⟨.err e, c, [⟨.closeSession true, sess.resp.authenticationToken⟩], t⟩ := by
  unfold Client.CloseSession Client.closeSession Client.Send Client.Session'
    mapOut sechanSend
  dsimp only []
  rw [hs, hch]

/-- Evaluation of `CloseSession` with an active session and a wrong-typed
response: the handler's "invalid response" error propagates, holder
untouched. -/
theorem CloseSession_active_badresp (c : Client) (sess : Session) (k : Nat)
    (t : List ChanResp) (hs : c.session = some (some sess))
    (hch : c.sechan = some ()) :
    c.CloseSession (ChanResp.resp (.otherResp k) :: t) =
      ⟨.err .invalidResponse, c,
       [⟨.closeSession true, sess.resp.authenticationToken⟩], t⟩ := by
  unfold Client.CloseSession Client.closeSession Client.Send Client.Session'
    mapOut sechanSend
  dsimp only []
  rw [hs, hch]

/-- Evaluation of `CloseSession` with an active session and a successful
round-trip: the holder is cleared. -/
theorem CloseSession_active_ok (c : Client) (sess : Session)
    (t : List ChanResp) (hs : c.session = some (some sess))
    (hch : c.sechan = some ()) :
    c.CloseSession (ChanResp.resp .closeSessionResp :: t) =
      ⟨.ok (), { c with session := some none },
       [⟨.closeSession true, sess.resp.authenticationToken⟩], t⟩ := by
  unfold Client.CloseSession Client.closeSession Client.Send Client.Session'
    mapOut sechanSend
  dsimp only []
  rw [hs, hch]
  dsimp only []
  rw [hch]

/-- The wire message of the unexported `closeSession(s)` with a non-nil
`s`: one `CloseSessionRequest` carrying the ACTIVE session's token. -/
theorem closeSession_some_sent (c : Client) (x sess : Session)
    (t : List ChanResp) (hs : c.session = some (some sess))
    (hch : c.sechan = some ()) :
    (c.closeSession (some x) t).sent =
      [⟨.closeSession true, sess.resp.authenticationToken⟩] := by
  unfold Client.closeSession Client.Send Client.Session'
  dsimp only []
  rw [mapOut_sent]
  rw [hs]
  dsimp only []
  exact sechanSend_sent c _ t () hch


/-- C1: once the `ActivateSessionResponse` arrives, `ActivateSession s`
closes the previously-active session; if that close fails (transport error
or wrong response type), a close of `s` itself is still put on the wire
(its own outcome ignored — the tail of the oracle is arbitrary), `s` is
not installed (the prior session stays active), and the prior close's
error is returned; if the prior close succeeds, `s` becomes the active
session. -/
theorem activateSession_replaces_or_rolls_back (c : Client)
    (snew prior : Session) (e : UaError) (k : Nat)
    (hch : c.sechan = some ()) (hs : c.session = some (some prior))
    (tail tail1 tail2 : List ChanResp) :
    ((c.ActivateSession (some snew)
        (ChanResp.resp .activateSessionResp :: ChanResp.err e :: tail)).out
       = .err e ∧
     (c.ActivateSession (some snew)
        (ChanResp.resp .activateSessionResp :: ChanResp.err e ::
          tail)).client.session = some (some prior) ∧
     (c.ActivateSession (some snew)
        (ChanResp.resp .activateSessionResp :: ChanResp.err e :: tail)).sent
       = [⟨.activateSession snew.signatureToSend snew.cfg.localeIDs
             snew.cfg.userIdentityToken snew.cfg.userTokenSignature,
           snew.resp.authenticationToken⟩,
          ⟨.closeSession true, prior.resp.authenticationToken⟩,
          ⟨.closeSession true, prior.resp.authenticationToken⟩]) ∧
    ((c.ActivateSession (some snew)
        (ChanResp.resp .activateSessionResp ::
         ChanResp.resp (.otherResp k) :: tail1)).out
       = .err .invalidResponse ∧
     (c.ActivateSession (some snew)
        (ChanResp.resp .activateSessionResp :: ChanResp.resp (.otherResp k) ::
          tail1)).client.session = some (some prior) ∧
     (c.ActivateSession (some snew)
        (ChanResp.resp .activateSessionResp :: ChanResp.resp (.otherResp k) ::
          tail1)).sent
       = [⟨.activateSession snew.signatureToSend snew.cfg.localeIDs
             snew.cfg.userIdentityToken snew.cfg.userTokenSignature,
           snew.resp.authenticationToken⟩,
          ⟨.closeSession true, prior.resp.authenticationToken⟩,
          ⟨.closeSession true, prior.resp.authenticationToken⟩]) ∧
    ((c.ActivateSession (some snew)
        (ChanResp.resp .activateSessionResp ::
         ChanResp.resp .closeSessionResp :: tail2)).out = .ok () ∧
     (c.ActivateSession (some snew)
        (ChanResp.resp .activateSessionResp ::
         ChanResp.resp .closeSessionResp :: tail2)).client.session
       = some (some snew) ∧
     (c.ActivateSession (some snew)
        (ChanResp.resp .activateSessionResp ::
         ChanResp.resp .closeSessionResp :: tail2)).sent
       = [⟨.activateSession snew.signatureToSend snew.cfg.localeIDs
             snew.cfg.userIdentityToken snew.cfg.userTokenSignature,
           snew.resp.authenticationToken⟩,
          ⟨.closeSession true, prior.resp.authenticationToken⟩]) := by
  refine ⟨?_, ?_, ?_⟩
  · unfold Client.ActivateSession
    dsimp only []
    rw [sechanSend_resp c _ .activateSessionResp _ () hch]
    dsimp only []
    rw [CloseSession_active_err c prior e tail hs hch]
    dsimp only []
    refine ⟨rfl, ?_, ?_⟩
    · rw [closeSession_client_eq]
      exact hs
    · rw [closeSession_some_sent c snew prior tail hs hch]
      rfl
  · unfold Client.ActivateSession
    dsimp only []
    rw [sechanSend_resp c _ .activateSessionResp _ () hch]
    dsimp only []
    rw [CloseSession_active_badresp c prior k tail1 hs hch]
    dsimp only []
    refine ⟨rfl, ?_, ?_⟩
    · rw [closeSession_client_eq]
      exact hs
    · rw [closeSession_some_sent c snew prior tail1 hs hch]
      rfl
  · unfold Client.ActivateSession
    dsimp only []
    rw [sechanSend_resp c _ .activateSessionResp _ () hch]
    dsimp only []
    rw [CloseSession_active_ok c prior tail2 hs hch]
    dsimp only []
    exact ⟨rfl, rfl, rfl⟩

/-- Witness for C1 at a concrete connected client: the failed prior close
rolls back and surfaces the error; the successful one installs the new
session. -/
theorem activateSession_replaces_or_rolls_back_witness :
    demoClient.sechan = some () ∧
    demoClient.session = some (some demoSession) ∧
    (demoClient.ActivateSession (some demoSession2)
       (ChanResp.resp .activateSessionResp ::
        ChanResp.err (.transport 5) :: [])).out = .err (.transport 5) ∧
    (demoClient.ActivateSession (some demoSession2)
       (ChanResp.resp .activateSessionResp ::
        ChanResp.err (.transport 5) :: [])).client.session
      = some (some demoSession) ∧
    (demoClient.ActivateSession (some demoSession2)
       (ChanResp.resp .activateSessionResp ::
        ChanResp.resp .closeSessionResp :: [])).client.session
      = some (some demoSession2) :=
  ⟨rfl, rfl,
   (activateSession_replaces_or_rolls_back demoClient demoSession2
      demoSession (.transport 5) 0 rfl rfl [] [] []).1.1,
   (activateSession_replaces_or_rolls_back demoClient demoSession2
      demoSession (.transport 5) 0 rfl rfl [] [] []).1.2.1,
   (activateSession_replaces_or_rolls_back demoClient demoSession2
      demoSession (.transport 5) 0 rfl rfl [] [] []).2.2.2.1⟩

/-- C8: along any sequence of API calls on a fresh client, the active
session is always either the typed nil or a session previously returned
by `CreateSession` on that client (the trace semantics only lets the
caller pass back sessions this client handed out, which is what the
unexported `Session` fields enforce in Go). -/
theorem session_only_from_createSession (url : String)
    (config : Option Config) (scfg : Option SessionConfig) (ops : List Op) :
    activeFromCreated (run ⟨initClient url config scfg, []⟩ ops) := by
  apply run_preserves_activeFromCreated
  intro s hs
  simp [initClient] at hs

/-- Witness for C8: a concrete dial / create / activate trace. -/
theorem session_only_from_createSession_witness :
    activeFromCreated
      (run ⟨initClient "opc.tcp://srv:4840" none none, []⟩
        [Op.dial (.ok ()),
         Op.createSession none (.ok 5) 7
           [ChanResp.resp (.createSessionResp demoResp)],
         Op.activateSession 0
           [ChanResp.resp .activateSessionResp,
            ChanResp.resp .closeSessionResp]]) :=
  session_only_from_createSession "opc.tcp://srv:4840" none none
    [Op.dial (.ok ()),
     Op.createSession none (.ok 5) 7
       [ChanResp.resp (.createSessionResp demoResp)],
     Op.activateSession 0
       [ChanResp.resp .activateSessionResp,
        ChanResp.resp .closeSessionResp]]

/-- C10: the session holder is initialized exactly by the first `Dial`
call.  On a never-dialed client, `Session`, `Send`, `CloseSession`,
`Close` and `GetEndpoints` all panic on the uninitialized atomic value
instead of returning an error; any `Dial` call (succeeding or not)
initializes the holder to the typed nil; a repeated `Dial` does not
re-initialize it; and once initialized the holder never becomes
uninitialized again under any operation. -/
theorem uninitialized_holder_panics (url : String) (config : Option Config)
    (scfg : Option SessionConfig) :
    (initClient url config scfg).Session' =
      .panic nilInterfaceConversionMsg ∧
    (∀ req oracle, ((initClient url config scfg).Send req oracle).out =
        .panic nilInterfaceConversionMsg) ∧
    (∀ oracle, ((initClient url config scfg).CloseSession oracle).out =
        .panic nilInterfaceConversionMsg) ∧
    (∀ oracle ccr, ((initClient url config scfg).Close oracle ccr).out =
        .panic nilInterfaceConversionMsg) ∧
    (∀ oracle, ((initClient url config scfg).GetEndpoints oracle).out =
        .panic nilInterfaceConversionMsg) ∧
    (∀ d, (((initClient url config scfg).Dial d).2).session = some none) ∧
    (∀ (c : Client) (d : Except UaError Unit), c.onceDone = true →
        ((c.Dial d).2).session = c.session) ∧
    (∀ (ts : TraceState) (op : Op), ts.client.session ≠ none →
        (step ts op).client.session ≠ none) := by
  refine ⟨rfl, fun req oracle => rfl, fun oracle => rfl,
    fun oracle ccr => rfl, fun oracle => rfl, ?_, ?_, ?_⟩
  · intro d
    unfold Client.Dial
    rcases d with e | u <;> rfl
  · intro c d h
    unfold Client.Dial
    rw [h]
    dsimp only []
    split
    · rfl
    · rcases d with e | u <;> rfl
  · intro ts op h
    rcases step_evolves ts op with hc | hc | ⟨s', hmem, hc⟩
    · rw [hc]
      exact h
    · rw [hc]
      simp
    · rw [hc]
      simp

/-- Witness for C10: a concrete fresh client, and preservation at a
concrete initialized state. -/
theorem uninitialized_holder_panics_witness :
    (initClient "opc.tcp://a:4840" none none).Session' =
      .panic nilInterfaceConversionMsg ∧
    ((initClient "opc.tcp://a:4840" none none).Close [] (.ok ())).out =
      .panic nilInterfaceConversionMsg ∧
    demoClient.onceDone = true ∧
    ((demoClient.Dial (.ok ())).2).session = demoClient.session ∧
    demoClient.session ≠ none ∧
    (step ⟨demoClient, [demoSession]⟩ Op.detachSession).client.session ≠
      none :=
  ⟨(uninitialized_holder_panics "opc.tcp://a:4840" none none).1,
   (uninitialized_holder_panics "opc.tcp://a:4840" none none).2.2.2.1 []
     (.ok ()),
   rfl,
   (uninitialized_holder_panics "opc.tcp://a:4840" none
       none).2.2.2.2.2.2.1 demoClient (.ok ()) rfl,
   (by decide),
   (uninitialized_holder_panics "opc.tcp://a:4840" none
       none).2.2.2.2.2.2.2 ⟨demoClient, [demoSession]⟩ Op.detachSession
     (by decide)⟩
